import Mathlib

/-!
Shallow embedding of the `ChatBot.vue` component of the UAVLogViewer
repository (file `src/src/components/ChatBot.vue`).

Modelling conventions:
* JS numbers appearing in the flight data (timestamps, altitudes, voltages)
  are modelled as rationals `ℚ`; all numerals used in the claims
  (`1.0`, `5.25`, …) are exactly representable as binary doubles, so the
  rational model agrees with IEEE-754 evaluation on them.
* A telemetry record is a mapping of field names to values; a field that a
  record does not define is JS `undefined`, modelled as `Option.none`.
  The code reads `timestamp` unconditionally on GPS records, so it is a
  plain field.
* `flightData` is a JS object mapping series names ("GPS", "ATT", "BAT", …)
  to arrays of records; it is modelled as an association list, where
  `Object.keys(fd).length > 0` becomes `¬ fd.isEmpty` and property access
  becomes `List.lookup`.
* `Message.content` is `Option String`: the code can push
  `response.data.response` even when the parsed body lacks that field, in
  which case the pushed content is JS `undefined` (`none`).
* The asynchronous `sendMessage` is split at its single suspension point
  (the awaited HTTP POST) into a synchronous start phase
  (`sendMessageStart`, guard + optimistic append + request emission) and a
  settle phase (`sendMessageSettle`, which consumes the `HttpResult`).
  `sendMessage` composes the two for runs where nothing interleaves.
* `String.trim` models JS `String.prototype.trim` (they agree on ASCII
  whitespace, which is all the claims use).
-/

namespace ChatBot

/-- Message roles: the component only ever constructs these two. -/
inductive Role where
  | user
  | assistant
  deriving DecidableEq, Repr

/-- A chat message `{role, content}`; `content = none` models JS `undefined`. -/
structure Message where
  role : Role
  content : Option String
  deriving DecidableEq, Repr

/-- One decoded telemetry record. `alt` / `volt` are absent (`none`) when the
record does not define the field, mirroring `msg.alt === undefined`. -/
structure TelemetryRecord where
  timestamp : ℚ := 0
  alt : Option ℚ := none
  volt : Option ℚ := none
  deriving DecidableEq, Repr

/-- The `flightData` prop: a JS object from series name to record array,
modelled as an association list. -/
abbrev FlightData := List (String × List TelemetryRecord)

/-- `hasFlightData` computed property: `Object.keys(this.flightData).length > 0`. -/
def hasFlightData (fd : FlightData) : Bool :=
  !fd.isEmpty

/-- Component state (the `data ()` fields of the component). -/
structure ChatState where
  messages : List Message := []
  newMessage : String := ""
  isLoading : Bool := false
  sessionId : Option String := none
  flightDuration : Option ℚ := none
  altitudeRange : Option String := none
  batteryRange : Option String := none
  deriving DecidableEq, Repr

/-- The component's initial `data ()` values. -/
def initialState : ChatState := {}

/-- ECMA-262 `Number.prototype.toFixed(1)` for a nonnegative argument:
the integer `n` minimising `|n/10 - q|`, ties resolved to the larger `n`,
printed as `n/10 "." n%10`. -/
def toFixed1Nonneg (q : ℚ) : String :=
  let n : ℕ := (q * 10 + 1/2).floor.toNat
  toString (n / 10) ++ "." ++ toString (n % 10)

/-- ECMA-262 `Number.prototype.toFixed(1)`: negative arguments print a minus
sign followed by `toFixed1` of the negation. -/
def toFixed1 (q : ℚ) : String :=
  if q < 0 then "-" ++ toFixed1Nonneg (-q) else toFixed1Nonneg q

/-- `Math.min(...l)` for the nonempty list `a :: as`. -/
def jsMin (a : ℚ) (as : List ℚ) : ℚ :=
  as.foldl min a

/-- `Math.max(...l)` for the nonempty list `a :: as`. -/
def jsMax (a : ℚ) (as : List ℚ) : ℚ :=
  as.foldl max a

/-- The GPS branch of `updateFlightInfo`: if `flightData.GPS` exists and has
length > 0, set `flightDuration` to
`gpsData[gpsData.length - 1].timestamp - gpsData[0].timestamp`. -/
def updateGPS (fd : FlightData) (st : ChatState) : ChatState :=
  match fd.lookup "GPS" with
  | some (r :: rs) =>
    { st with flightDuration := some ((rs.getLastD r).timestamp - r.timestamp) }
  | _ => st

/-- The ATT branch of `updateFlightInfo`: if `flightData.ATT` exists and has
length > 0, map to `alt`, filter out `undefined`, and if anything remains set
`altitudeRange` to the formatted min/max string. -/
def updateATT (fd : FlightData) (st : ChatState) : ChatState :=
  match fd.lookup "ATT" with
  | some att =>
    if att.length > 0 then
      match (att.map (·.alt)).filterMap id with
      | [] => st
      | a :: as =>
        let range := toFixed1 (jsMin a as) ++ "m - " ++ toFixed1 (jsMax a as) ++ "m"
        { st with altitudeRange := some range }
    else st
  | none => st

/-- The BAT branch of `updateFlightInfo`: as the ATT branch but over `volt`,
with unit suffix "V". -/
def updateBAT (fd : FlightData) (st : ChatState) : ChatState :=
  match fd.lookup "BAT" with
  | some bat =>
    if bat.length > 0 then
      match (bat.map (·.volt)).filterMap id with
      | [] => st
      | a :: as =>
        let range := toFixed1 (jsMin a as) ++ "V - " ++ toFixed1 (jsMax a as) ++ "V"
        { st with batteryRange := some range }
    else st
  | none => st

/-- `updateFlightInfo ()`: early return unless `hasFlightData`, then the three
independent series branches in source order. -/
def updateFlightInfo (fd : FlightData) (st : ChatState) : ChatState :=
  if hasFlightData fd then updateBAT fd (updateATT fd (updateGPS fd st)) else st

/-- The fixed greeting pushed by the `flightData` watcher. -/
def greetingText : String :=
  "Flight data loaded! You can ask me questions about your flight, such as:\n" ++
  "- What was the highest altitude reached?\n" ++
  "- When did the GPS signal first get lost?\n" ++
  "- What was the maximum battery temperature?\n" ++
  "- How long was the total flight time?\n" ++
  "- List all critical errors that happened mid-flight.\n" ++
  "- When was the first instance of RC signal loss?"

/-- The `flightData` watcher handler: if the new mapping is non-null and
non-empty, run `updateFlightInfo` and, if the message list is empty, push the
greeting. -/
def flightDataChanged (newData : FlightData) (st : ChatState) : ChatState :=
  if hasFlightData newData then
    let st1 := updateFlightInfo newData st
    if st1.messages.length = 0 then
      let greeting : Message := { role := .assistant, content := some greetingText }
      { st1 with messages := st1.messages ++ [greeting] }
    else st1
  else st

/-- The request payload of the POST to `http://localhost:8001/chat`:
`{message, sessionId}`. -/
structure ChatRequest where
  message : String
  sessionId : Option String
  deriving DecidableEq, Repr

/-- The parsed JSON body of a 2xx reply, as the code reads it: only the
`response` field is accessed, `none` when the body lacks it. -/
structure ResponseBody where
  response : Option String
  deriving DecidableEq, Repr

/-- Why an axios promise can reject: the causes the specification names. -/
inductive FailureCause where
  | timeout
  | connectionRefused
  | badStatus (code : ℕ)
  deriving DecidableEq, Repr

/-- Outcome of the awaited `axios.post`: a fulfilled promise carrying a parsed
body, or a rejected promise (timeout, connection refused, non-2xx status). -/
inductive HttpResult where
  | success (body : ResponseBody)
  | failure (cause : FailureCause)
  deriving DecidableEq, Repr

/-- The fallback assistant content pushed in the `catch` branch. -/
def errorText : String := "Sorry, there was an error processing your message."

/-- JS `String.prototype.trim`: strip leading and trailing whitespace.
Defined on the character list so that it is kernel-computable; it agrees with
the ECMA behaviour on the ASCII whitespace the component's guard cares about. -/
def jsTrim (s : String) : String :=
  String.mk (((s.data.dropWhile Char.isWhitespace).reverse.dropWhile Char.isWhitespace).reverse)

/-- The synchronous prefix of `sendMessage ()`, up to the awaited POST:
the guard `!newMessage.trim() || isLoading || !hasFlightData` returns with no
request; otherwise the input is cleared, the busy flag set, the user message
pushed, and the request `{message, sessionId}` emitted. -/
def sendMessageStart (fd : FlightData) (st : ChatState) : ChatState × Option ChatRequest :=
  if jsTrim st.newMessage = "" || st.isLoading || !hasFlightData fd then
    (st, none)
  else
    let userMessage := st.newMessage
    let userMsg : Message := { role := .user, content := some userMessage }
    let st1 : ChatState :=
      { st with newMessage := "", isLoading := true, messages := st.messages ++ [userMsg] }
    (st1, some { message := userMessage, sessionId := st.sessionId })

/-- The continuation of `sendMessage ()` after the awaited POST settles:
on fulfilment push an assistant message whose content is `response.data.response`
(JS `undefined` when the body lacks the field); on rejection push the fixed
fallback; in both cases the `finally` block clears the busy flag. -/
def sendMessageSettle (res : HttpResult) (st : ChatState) : ChatState :=
  let st1 : ChatState :=
    match res with
    | .success body =>
      let reply : Message := { role := .assistant, content := body.response }
      { st with messages := st.messages ++ [reply] }
    | .failure _ =>
      let fallback : Message := { role := .assistant, content := some errorText }
      { st with messages := st.messages ++ [fallback] }
  { st1 with isLoading := false }

/-- A whole `sendMessage ()` call in a run where nothing interleaves with the
awaited POST, whose outcome is `res`; also returns the request that was issued,
if any. -/
def sendMessage (fd : FlightData) (res : HttpResult) (st : ChatState) :
    ChatState × Option ChatRequest :=
  match sendMessageStart fd st with
  | (st1, none) => (st1, none)
  | (st1, some req) => (sendMessageSettle res st1, some req)

/-! Concrete inputs used to exercise the definitions. -/

/-- The ATT series of the spec's altitude example: `[{alt:1.0},{alt:5.25},{}]`. -/
def fdAttExample : FlightData :=
  [("ATT", [{ alt := some 1.0 }, { alt := some 5.25 }, { : TelemetryRecord }])]

/-- A two-record GPS series with timestamps 0 and 100. -/
def fdGpsTwo : FlightData :=
  [("GPS", [{ timestamp := 0 }, { timestamp := 100 }])]

/-- A flight-data mapping with only an ATT series (no GPS, no BAT). -/
def fdAttOnly : FlightData :=
  [("ATT", [{ alt := some 2.0 }])]

/-- Non-empty ATT and BAT series in which no record defines `alt` / `volt`. -/
def fdNoAltNoVolt : FlightData :=
  [("ATT", [{ : TelemetryRecord }]), ("BAT", [{ : TelemetryRecord }])]

/-- A state with text "hi" typed, otherwise pristine. -/
def stHi : ChatState := { newMessage := "hi" }

/-- A state with text typed but a request already in flight. -/
def stBusy : ChatState := { newMessage := "hi", isLoading := true }

/-- The state `sendMessageStart` produces from `stHi` when the guard passes. -/
def stHiStarted : ChatState :=
  { messages := [{ role := .user, content := some "hi" }],
    newMessage := "",
    isLoading := true }

/-- The request `sendMessageStart` emits from `stHi`. -/
def reqHi : ChatRequest := { message := "hi", sessionId := none }

/-! General lemmas about the embedded operations. -/

/-- Batteries' `Rat.floor` agrees with Mathlib's `Int.floor` on `ℚ`. -/
theorem rat_floor_eq_int_floor (q : ℚ) : q.floor = ⌊q⌋ := by
  rw [Rat.floor_def', Rat.floor_def]

/-- Evaluation rule for `toFixed1` on a nonnegative rational whose rounding
integer is known. -/
theorem toFixed1_eq_of_nonneg (q : ℚ) (hq : 0 ≤ q) (n : ℕ)
    (h : ⌊q * 10 + 1/2⌋ = (n : ℤ)) :
    toFixed1 q = toString (n / 10) ++ "." ++ toString (n % 10) := by
  rw [toFixed1, if_neg (not_lt.2 hq), toFixed1Nonneg]
  rw [rat_floor_eq_int_floor, h, Int.toNat_natCast]

/-- `updateGPS` only ever writes `flightDuration`. -/
theorem updateGPS_altitudeRange (fd : FlightData) (st : ChatState) :
    (updateGPS fd st).altitudeRange = st.altitudeRange := by
  unfold updateGPS
  rcases fd.lookup "GPS" with _ | (_ | ⟨r, rs⟩) <;> rfl

/-- `updateGPS` leaves `batteryRange` unchanged. -/
theorem updateGPS_batteryRange (fd : FlightData) (st : ChatState) :
    (updateGPS fd st).batteryRange = st.batteryRange := by
  unfold updateGPS
  rcases fd.lookup "GPS" with _ | (_ | ⟨r, rs⟩) <;> rfl

/-- `updateGPS` leaves the message list unchanged. -/
theorem updateGPS_messages (fd : FlightData) (st : ChatState) :
    (updateGPS fd st).messages = st.messages := by
  unfold updateGPS
  rcases fd.lookup "GPS" with _ | (_ | ⟨r, rs⟩) <;> rfl

/-- What `updateGPS` writes into `flightDuration`. -/
theorem updateGPS_flightDuration (fd : FlightData) (st : ChatState) :
    (updateGPS fd st).flightDuration =
      match fd.lookup "GPS" with
      | some (r :: rs) => some ((rs.getLastD r).timestamp - r.timestamp)
      | _ => st.flightDuration := by
  unfold updateGPS
  rcases fd.lookup "GPS" with _ | (_ | ⟨r, rs⟩) <;> rfl

/-- `updateATT` leaves `flightDuration` unchanged. -/
theorem updateATT_flightDuration (fd : FlightData) (st : ChatState) :
    (updateATT fd st).flightDuration = st.flightDuration := by
  unfold updateATT
  rcases fd.lookup "ATT" with _ | att
  · rfl
  · dsimp only
    split
    · split <;> rfl
    · rfl

/-- `updateATT` leaves `batteryRange` unchanged. -/
theorem updateATT_batteryRange (fd : FlightData) (st : ChatState) :
    (updateATT fd st).batteryRange = st.batteryRange := by
  unfold updateATT
  rcases fd.lookup "ATT" with _ | att
  · rfl
  · dsimp only
    split
    · split <;> rfl
    · rfl

/-- `updateATT` leaves the message list unchanged. -/
theorem updateATT_messages (fd : FlightData) (st : ChatState) :
    (updateATT fd st).messages = st.messages := by
  unfold updateATT
  rcases fd.lookup "ATT" with _ | att
  · rfl
  · dsimp only
    split
    · split <;> rfl
    · rfl

/-- What `updateATT` writes into `altitudeRange`: the defined-`alt` values
decide everything. -/
theorem updateATT_altitudeRange (fd : FlightData) (st : ChatState) :
    (updateATT fd st).altitudeRange =
      match (((fd.lookup "ATT").getD []).map (·.alt)).filterMap id with
      | [] => st.altitudeRange
      | a :: as =>
        some (toFixed1 (jsMin a as) ++ "m - " ++ toFixed1 (jsMax a as) ++ "m") := by
  unfold updateATT
  rcases fd.lookup "ATT" with _ | att
  · rfl
  · rcases att with _ | ⟨r, rt⟩
    · rfl
    · dsimp only
      rw [if_pos (by simp)]
      simp only [Option.getD_some]
      rcases h : (((r :: rt) : List TelemetryRecord).map (·.alt)).filterMap id
        with _ | ⟨a, as⟩ <;> rw [h]

/-- `updateBAT` leaves `flightDuration` unchanged. -/
theorem updateBAT_flightDuration (fd : FlightData) (st : ChatState) :
    (updateBAT fd st).flightDuration = st.flightDuration := by
  unfold updateBAT
  rcases fd.lookup "BAT" with _ | bat
  · rfl
  · dsimp only
    split
    · split <;> rfl
    · rfl

/-- `updateBAT` leaves `altitudeRange` unchanged. -/
theorem updateBAT_altitudeRange (fd : FlightData) (st : ChatState) :
    (updateBAT fd st).altitudeRange = st.altitudeRange := by
  unfold updateBAT
  rcases fd.lookup "BAT" with _ | bat
  · rfl
  · dsimp only
    split
    · split <;> rfl
    · rfl

/-- `updateBAT` leaves the message list unchanged. -/
theorem updateBAT_messages (fd : FlightData) (st : ChatState) :
    (updateBAT fd st).messages = st.messages := by
  unfold updateBAT
  rcases fd.lookup "BAT" with _ | bat
  · rfl
  · dsimp only
    split
    · split <;> rfl
    · rfl

/-- What `updateBAT` writes into `batteryRange`. -/
theorem updateBAT_batteryRange (fd : FlightData) (st : ChatState) :
    (updateBAT fd st).batteryRange =
      match (((fd.lookup "BAT").getD []).map (·.volt)).filterMap id with
      | [] => st.batteryRange
      | a :: as =>
        some (toFixed1 (jsMin a as) ++ "V - " ++ toFixed1 (jsMax a as) ++ "V") := by
  unfold updateBAT
  rcases fd.lookup "BAT" with _ | bat
  · rfl
  · rcases bat with _ | ⟨r, rt⟩
    · rfl
    · dsimp only
      rw [if_pos (by simp)]
      simp only [Option.getD_some]
      rcases h : (((r :: rt) : List TelemetryRecord).map (·.volt)).filterMap id
        with _ | ⟨a, as⟩ <;> rw [h]

/-- An empty flight-data mapping fails the `hasFlightData` guard, and is the
only mapping that does. -/
theorem hasFlightData_false_iff (fd : FlightData) :
    hasFlightData fd = false ↔ fd = [] := by
  unfold hasFlightData
  rcases fd with _ | ⟨p, ps⟩ <;> simp

/-- What `updateFlightInfo` writes into `flightDuration`. -/
theorem updateFlightInfo_flightDuration (fd : FlightData) (st : ChatState) :
    (updateFlightInfo fd st).flightDuration =
      match fd.lookup "GPS" with
      | some (r :: rs) => some ((rs.getLastD r).timestamp - r.timestamp)
      | _ => st.flightDuration := by
  unfold updateFlightInfo
  by_cases h : hasFlightData fd = true
  · rw [if_pos h, updateBAT_flightDuration, updateATT_flightDuration,
      updateGPS_flightDuration]
  · rw [if_neg h]
    have he : fd = [] := (hasFlightData_false_iff fd).mp (by
      rcases hb : hasFlightData fd with _ | _
      · rfl
      · exact absurd hb h)
    subst he
    rfl

/-- What `updateFlightInfo` writes into `altitudeRange`. -/
theorem updateFlightInfo_altitudeRange (fd : FlightData) (st : ChatState) :
    (updateFlightInfo fd st).altitudeRange =
      match (((fd.lookup "ATT").getD []).map (·.alt)).filterMap id with
      | [] => st.altitudeRange
      | a :: as =>
        some (toFixed1 (jsMin a as) ++ "m - " ++ toFixed1 (jsMax a as) ++ "m") := by
  unfold updateFlightInfo
  by_cases h : hasFlightData fd = true
  · rw [if_pos h, updateBAT_altitudeRange, updateATT_altitudeRange,
      updateGPS_altitudeRange]
  · rw [if_neg h]
    have he : fd = [] := (hasFlightData_false_iff fd).mp (by
      rcases hb : hasFlightData fd with _ | _
      · rfl
      · exact absurd hb h)
    subst he
    rfl

/-- What `updateFlightInfo` writes into `batteryRange`. -/
theorem updateFlightInfo_batteryRange (fd : FlightData) (st : ChatState) :
    (updateFlightInfo fd st).batteryRange =
      match (((fd.lookup "BAT").getD []).map (·.volt)).filterMap id with
      | [] => st.batteryRange
      | a :: as =>
        some (toFixed1 (jsMin a as) ++ "V - " ++ toFixed1 (jsMax a as) ++ "V") := by
  unfold updateFlightInfo
  by_cases h : hasFlightData fd = true
  · rw [if_pos h, updateBAT_batteryRange]
    rw [updateATT_batteryRange, updateGPS_batteryRange]
  · rw [if_neg h]
    have he : fd = [] := (hasFlightData_false_iff fd).mp (by
      rcases hb : hasFlightData fd with _ | _
      · rfl
      · exact absurd hb h)
    subst he
    rfl

/-- `updateFlightInfo` never touches the message list. -/
theorem updateFlightInfo_messages (fd : FlightData) (st : ChatState) :
    (updateFlightInfo fd st).messages = st.messages := by
  unfold updateFlightInfo
  split
  · rw [updateBAT_messages, updateATT_messages, updateGPS_messages]
  · rfl

/-- The watcher handler writes `flightDuration` exactly as `updateFlightInfo`
does when the new mapping is non-empty, and not at all otherwise. -/
theorem flightDataChanged_flightDuration (fd : FlightData) (st : ChatState) :
    (flightDataChanged fd st).flightDuration =
      match fd.lookup "GPS" with
      | some (r :: rs) => some ((rs.getLastD r).timestamp - r.timestamp)
      | _ => st.flightDuration := by
  unfold flightDataChanged
  by_cases h : hasFlightData fd = true
  · rw [if_pos h]
    dsimp only
    split
    · exact updateFlightInfo_flightDuration fd st
    · exact updateFlightInfo_flightDuration fd st
  · rw [if_neg h]
    have he : fd = [] := (hasFlightData_false_iff fd).mp (by
      rcases hb : hasFlightData fd with _ | _
      · rfl
      · exact absurd hb h)
    subst he
    rfl

/-- The watcher handler writes `altitudeRange` exactly as `updateFlightInfo`
does when the new mapping is non-empty, and not at all otherwise. -/
theorem flightDataChanged_altitudeRange (fd : FlightData) (st : ChatState) :
    (flightDataChanged fd st).altitudeRange =
      match (((fd.lookup "ATT").getD []).map (·.alt)).filterMap id with
      | [] => st.altitudeRange
      | a :: as =>
        some (toFixed1 (jsMin a as) ++ "m - " ++ toFixed1 (jsMax a as) ++ "m") := by
  unfold flightDataChanged
  by_cases h : hasFlightData fd = true
  · rw [if_pos h]
    dsimp only
    split
    · exact updateFlightInfo_altitudeRange fd st
    · exact updateFlightInfo_altitudeRange fd st
  · rw [if_neg h]
    have he : fd = [] := (hasFlightData_false_iff fd).mp (by
      rcases hb : hasFlightData fd with _ | _
      · rfl
      · exact absurd hb h)
    subst he
    rfl

/-- The watcher handler writes `batteryRange` exactly as `updateFlightInfo`
does when the new mapping is non-empty, and not at all otherwise. -/
theorem flightDataChanged_batteryRange (fd : FlightData) (st : ChatState) :
    (flightDataChanged fd st).batteryRange =
      match (((fd.lookup "BAT").getD []).map (·.volt)).filterMap id with
      | [] => st.batteryRange
      | a :: as =>
        some (toFixed1 (jsMin a as) ++ "V - " ++ toFixed1 (jsMax a as) ++ "V") := by
  unfold flightDataChanged
  by_cases h : hasFlightData fd = true
  · rw [if_pos h]
    dsimp only
    split
    · exact updateFlightInfo_batteryRange fd st
    · exact updateFlightInfo_batteryRange fd st
  · rw [if_neg h]
    have he : fd = [] := (hasFlightData_false_iff fd).mp (by
      rcases hb : hasFlightData fd with _ | _
      · rfl
      · exact absurd hb h)
    subst he
    rfl

/-- `sendMessageStart` either rejects (guard) or performs exactly the
optimistic update and emits exactly one request. -/
theorem sendMessageStart_spec (fd : FlightData) (st : ChatState) :
    (¬ (jsTrim st.newMessage = "" ∨ st.isLoading = true ∨ hasFlightData fd = false) →
      sendMessageStart fd st =
        ({ st with newMessage := "", isLoading := true, messages := st.messages ++ [{ role := .user, content := some st.newMessage }] },
         some { message := st.newMessage, sessionId := st.sessionId }))
    ∧ ((jsTrim st.newMessage = "" ∨ st.isLoading = true ∨ hasFlightData fd = false) →
      sendMessageStart fd st = (st, none)) := by
  unfold sendMessageStart
  constructor
  · intro h
    rw [if_neg]
    simp only [Bool.or_eq_true, Bool.not_eq_true']
    push_neg at h
    simp [h.1, h.2.1, h.2.2]
  · intro h
    rw [if_pos]
    rcases h with h | h | h <;> simp [h]

/-- The message appended by `sendMessageSettle`, by outcome. -/
theorem sendMessageSettle_messages (res : HttpResult) (st : ChatState) :
    (sendMessageSettle res st).messages =
      match res with
      | .success body => st.messages ++ [{ role := .assistant, content := body.response }]
      | .failure _ => st.messages ++ [{ role := .assistant, content := some errorText }] := by
  unfold sendMessageSettle
  rcases res with _ | _ <;> rfl

/-- The `finally` block: the busy flag is false after any settle. -/
theorem sendMessageSettle_isLoading (res : HttpResult) (st : ChatState) :
    (sendMessageSettle res st).isLoading = false := by
  unfold sendMessageSettle
  rcases res with _ | _ <;> rfl

/-- `sendMessageSettle` never touches the input field. -/
theorem sendMessageSettle_newMessage (res : HttpResult) (st : ChatState) :
    (sendMessageSettle res st).newMessage = st.newMessage := by
  unfold sendMessageSettle
  rcases res with _ | _ <;> rfl

/-- A Boolean `hasFlightData` that is not true is false. -/
theorem hasFlightData_eq_false_of_not (fd : FlightData)
    (h : ¬ hasFlightData fd = true) : hasFlightData fd = false := by
  rcases hb : hasFlightData fd with _ | _
  · rfl
  · exact absurd hb h

/-- How the watcher handler changes the message list: one greeting when the
mapping is non-empty and the list empty, otherwise nothing. -/
theorem flightDataChanged_messages_spec (fd : FlightData) (st : ChatState) :
    (hasFlightData fd = true → st.messages = [] →
      (flightDataChanged fd st).messages =
        [{ role := .assistant, content := some greetingText }])
    ∧ (st.messages ≠ [] → (flightDataChanged fd st).messages = st.messages)
    ∧ (hasFlightData fd = false → flightDataChanged fd st = st) := by
  refine ⟨?_, ?_, ?_⟩
  · intro hfd hm
    unfold flightDataChanged
    rw [if_pos hfd]
    dsimp only
    rw [if_pos (by rw [updateFlightInfo_messages, hm]; rfl)]
    rw [updateFlightInfo_messages, hm]
    rfl
  · intro hm
    unfold flightDataChanged
    by_cases hfd : hasFlightData fd = true
    · rw [if_pos hfd]
      dsimp only
      rw [if_neg (by rw [updateFlightInfo_messages]
                     simpa [List.length_eq_zero] using hm)]
      exact updateFlightInfo_messages fd st
    · rw [if_neg hfd]
  · intro hfd
    unfold flightDataChanged
    rw [if_neg (by simp [hfd])]

/-- Evaluating the altitude branch on the spec's example series
`[{alt:1.0},{alt:5.25},{}]`: `toFixed(1)` rounds `5.25` up to `5.3`. -/
theorem fdAttExample_altitudeRange :
    (updateFlightInfo fdAttExample initialState).altitudeRange = some "1.0m - 5.3m" := by
  simp [updateFlightInfo, fdAttExample, hasFlightData, updateGPS, updateATT, updateBAT,
    List.lookup, jsMin, jsMax, initialState]
  norm_num [min_def, max_def]
  rw [toFixed1_eq_of_nonneg 1 (by norm_num) 10 (by norm_num),
    toFixed1_eq_of_nonneg (21/4) (by norm_num) 53 (by norm_num)]
  decide

/-! Claims. -/

/-- C1 (counterexample): on the ATT series `[{alt:1.0},{alt:5.25},{}]`,
`updateFlightInfo` does NOT set the altitude range to "1.0m - 5.25m" — the
code formats both bounds with `toFixed(1)`, which rounds `5.25` to `5.3`. -/
theorem C1_counterexample :
    ¬ (updateFlightInfo fdAttExample initialState).altitudeRange = some "1.0m - 5.25m" := by
  rw [fdAttExample_altitudeRange]
  decide

/-- C1 (amended): for a flightData whose ATT series is
`[{alt:1.0},{alt:5.25},{}]`, `updateFlightInfo` sets the altitude range to
"1.0m - 5.3m" (min 1.0, max 5.25 rounded to one decimal place), with the
record lacking `alt` ignored by the min/max computation. -/
theorem C1_altitude_example :
    (updateFlightInfo fdAttExample initialState).altitudeRange = some "1.0m - 5.3m" :=
  fdAttExample_altitudeRange

/-- C3: whenever the GPS series exists and is non-empty, `updateFlightInfo`
sets `flightDuration` to the last record's timestamp minus the first record's
timestamp; a single-record series yields 0; and on a first computation
(the initial state) with no non-empty GPS series, `flightDuration` stays
unset. -/
theorem C3_duration (fd : FlightData) (st : ChatState) :
    (∀ (r : TelemetryRecord) (rs : List TelemetryRecord),
      fd.lookup "GPS" = some (r :: rs) →
      (updateFlightInfo fd st).flightDuration =
        some ((rs.getLastD r).timestamp - r.timestamp))
    ∧ (∀ r : TelemetryRecord, fd.lookup "GPS" = some [r] →
      (updateFlightInfo fd st).flightDuration = some 0)
    ∧ ((fd.lookup "GPS").getD [] = [] →
      (updateFlightInfo fd initialState).flightDuration = none) := by
  refine ⟨?_, ?_, ?_⟩
  · intro r rs h
    rw [updateFlightInfo_flightDuration, h]
  · intro r h
    rw [updateFlightInfo_flightDuration, h]
    simp [List.getLastD]
  · intro h
    rw [updateFlightInfo_flightDuration]
    rcases hg : fd.lookup "GPS" with _ | l
    · rfl
    · rw [hg] at h
      simp only [Option.getD_some] at h
      subst h
      rfl

/-- C3 witness: the two-record series `[{timestamp:0},{timestamp:100}]` gives
duration 100, and a flightData with no GPS series leaves it unset. -/
theorem C3_witness :
    fdGpsTwo.lookup "GPS" = some [{ timestamp := 0 }, { timestamp := 100 }]
    ∧ (updateFlightInfo fdGpsTwo initialState).flightDuration = some 100
    ∧ (updateFlightInfo fdAttOnly initialState).flightDuration = none := by
  refine ⟨rfl, ?_, ?_⟩
  · have h := (C3_duration fdGpsTwo initialState).1 { timestamp := 0 }
      [{ timestamp := 100 }] rfl
    simpa [List.getLastD] using h
  · exact (C3_duration fdAttOnly initialState).2.2 rfl

/-- C9: a non-empty ATT series in which no record defines `alt` leaves
`altitudeRange` unchanged (the `Math.min`/`Math.max` spread over an empty
array is never taken), and likewise a non-empty BAT series with no `volt`
leaves `batteryRange` unchanged. -/
theorem C9_empty_guard (fd : FlightData) (st : ChatState) :
    (∀ att : List TelemetryRecord, fd.lookup "ATT" = some att → att ≠ [] →
      (∀ r ∈ att, r.alt = none) →
      (updateFlightInfo fd st).altitudeRange = st.altitudeRange)
    ∧ (∀ bat : List TelemetryRecord, fd.lookup "BAT" = some bat → bat ≠ [] →
      (∀ r ∈ bat, r.volt = none) →
      (updateFlightInfo fd st).batteryRange = st.batteryRange) := by
  constructor
  · intro att h _ hall
    have hnil : (att.map (·.alt)).filterMap id = [] := by
      rw [List.filterMap_eq_nil_iff]
      intro a ha
      rcases List.mem_map.mp ha with ⟨r, hr, rfl⟩
      exact hall r hr
    rw [updateFlightInfo_altitudeRange, h, Option.getD_some, hnil]
  · intro bat h _ hall
    have hnil : (bat.map (·.volt)).filterMap id = [] := by
      rw [List.filterMap_eq_nil_iff]
      intro a ha
      rcases List.mem_map.mp ha with ⟨r, hr, rfl⟩
      exact hall r hr
    rw [updateFlightInfo_batteryRange, h, Option.getD_some, hnil]

/-- C9 witness: one-record ATT and BAT series with no `alt`/`volt` leave both
ranges unset on the initial state. -/
theorem C9_witness :
    fdNoAltNoVolt.lookup "ATT" = some [{ : TelemetryRecord }]
    ∧ fdNoAltNoVolt.lookup "BAT" = some [{ : TelemetryRecord }]
    ∧ (updateFlightInfo fdNoAltNoVolt initialState).altitudeRange = none
    ∧ (updateFlightInfo fdNoAltNoVolt initialState).batteryRange = none := by
  refine ⟨rfl, rfl, ?_, ?_⟩
  · exact (C9_empty_guard fdNoAltNoVolt initialState).1 [{ : TelemetryRecord }] rfl
      (by simp) (by simp)
  · exact (C9_empty_guard fdNoAltNoVolt initialState).2 [{ : TelemetryRecord }] rfl
      (by simp) (by simp)

/-- C2 (counterexample): the derived summary fields are NOT invalidated when
`flightData` changes. After loading a mapping with a GPS series (duration
100) and then loading a mapping with only an ATT series, `flightDuration`
still holds the stale value 100 even though the new mapping has no GPS
series. -/
theorem C2_counterexample :
    fdAttOnly.lookup "GPS" = none
    ∧ (flightDataChanged fdAttOnly (flightDataChanged fdGpsTwo initialState)).flightDuration
        = some 100 := by
  refine ⟨rfl, ?_⟩
  rw [flightDataChanged_flightDuration]
  rw [show fdAttOnly.lookup "GPS" = none from rfl]
  rw [flightDataChanged_flightDuration]
  rw [show fdGpsTwo.lookup "GPS"
      = some [{ timestamp := 0 }, { timestamp := 100 }] from rfl]
  simp [List.getLastD]

/-- C2 (amended): when `flightData` changes, each derived summary field is
recomputed from the new mapping only when the new mapping supplies the
corresponding data (a non-empty GPS series; an ATT record with `alt`; a BAT
record with `volt`); otherwise the field silently keeps its previous value,
so a value computed from an earlier `flightData` persists. -/
theorem C2_recompute (fd : FlightData) (st : ChatState) :
    ((flightDataChanged fd st).flightDuration =
      match fd.lookup "GPS" with
      | some (r :: rs) => some ((rs.getLastD r).timestamp - r.timestamp)
      | _ => st.flightDuration)
    ∧ ((flightDataChanged fd st).altitudeRange =
      match (((fd.lookup "ATT").getD []).map (·.alt)).filterMap id with
      | [] => st.altitudeRange
      | a :: as =>
        some (toFixed1 (jsMin a as) ++ "m - " ++ toFixed1 (jsMax a as) ++ "m"))
    ∧ ((flightDataChanged fd st).batteryRange =
      match (((fd.lookup "BAT").getD []).map (·.volt)).filterMap id with
      | [] => st.batteryRange
      | a :: as =>
        some (toFixed1 (jsMin a as) ++ "V - " ++ toFixed1 (jsMax a as) ++ "V")) :=
  ⟨flightDataChanged_flightDuration fd st, flightDataChanged_altitudeRange fd st,
    flightDataChanged_batteryRange fd st⟩

/-- C7: a change to a non-empty mapping with an empty message list appends
exactly the one fixed greeting; with a non-empty message list the list is
unchanged; a change to an empty mapping changes nothing at all. -/
theorem C7_greeting (fd : FlightData) (st : ChatState) :
    (hasFlightData fd = true → st.messages = [] →
      (flightDataChanged fd st).messages =
        [{ role := .assistant, content := some greetingText }])
    ∧ (st.messages ≠ [] → (flightDataChanged fd st).messages = st.messages)
    ∧ (hasFlightData fd = false → flightDataChanged fd st = st) :=
  flightDataChanged_messages_spec fd st

/-- C7 witness: loading `fdGpsTwo` on the pristine state appends one greeting;
loading it again appends nothing; a change to the empty mapping is the
identity. -/
theorem C7_witness :
    hasFlightData fdGpsTwo = true
    ∧ initialState.messages = []
    ∧ (flightDataChanged fdGpsTwo initialState).messages =
        [{ role := .assistant, content := some greetingText }]
    ∧ (flightDataChanged fdGpsTwo (flightDataChanged fdGpsTwo initialState)).messages =
        (flightDataChanged fdGpsTwo initialState).messages
    ∧ flightDataChanged [] initialState = initialState := by
  have h1 := (C7_greeting fdGpsTwo initialState).1 rfl rfl
  refine ⟨rfl, rfl, h1, ?_, ?_⟩
  · exact (C7_greeting fdGpsTwo (flightDataChanged fdGpsTwo initialState)).2.1
      (by rw [h1]; simp)
  · exact (C7_greeting [] initialState).2.2 rfl

/-- C4: with blank input, a request already in flight, or empty flightData,
`sendMessage` returns the state unchanged and issues no request; and once a
call has issued a request (busy flag set), any second `sendMessage` before it
settles is rejected synchronously with no state change and no request. -/
theorem C4_guard (fd : FlightData) (st : ChatState) :
    ((jsTrim st.newMessage = "" ∨ st.isLoading = true ∨ hasFlightData fd = false) →
      ∀ res : HttpResult, sendMessage fd res st = (st, none))
    ∧ (∀ (st1 : ChatState) (req : ChatRequest),
      sendMessageStart fd st = (st1, some req) →
      ∀ (fd2 : FlightData) (res2 : HttpResult),
        sendMessage fd2 res2 st1 = (st1, none)) := by
  constructor
  · intro g res
    have h := (sendMessageStart_spec fd st).2 g
    unfold sendMessage
    rw [h]
  · intro st1 req h fd2 res2
    have hload : st1.isLoading = true := by
      by_cases g : (jsTrim st.newMessage = "" ∨ st.isLoading = true ∨
          hasFlightData fd = false)
      · rw [(sendMessageStart_spec fd st).2 g] at h
        injection h with h1 h2
        simp at h2
      · rw [(sendMessageStart_spec fd st).1 g] at h
        injection h with h1 h2
        rw [← h1]
    have h2 := (sendMessageStart_spec fd2 st1).2 (Or.inr (Or.inl hload))
    unfold sendMessage
    rw [h2]

/-- C4 witness: a busy state rejects a send, and a send that passed the guard
makes any immediate second send a no-op. -/
theorem C4_witness :
    (jsTrim stBusy.newMessage = "" ∨ stBusy.isLoading = true ∨
      hasFlightData fdGpsTwo = false)
    ∧ sendMessage fdGpsTwo (.failure .timeout) stBusy = (stBusy, none)
    ∧ sendMessageStart fdGpsTwo stHi = (stHiStarted, some reqHi)
    ∧ sendMessage fdGpsTwo (.failure .timeout) stHiStarted = (stHiStarted, none) := by
  have g : (jsTrim stBusy.newMessage = "" ∨ stBusy.isLoading = true ∨
      hasFlightData fdGpsTwo = false) := Or.inr (Or.inl rfl)
  have hstart : sendMessageStart fdGpsTwo stHi = (stHiStarted, some reqHi) := by decide
  exact ⟨g, (C4_guard fdGpsTwo stBusy).1 g (.failure .timeout), hstart,
    (C4_guard fdGpsTwo stHi).2 stHiStarted reqHi hstart fdGpsTwo (.failure .timeout)⟩

/-- C5: when the awaited POST rejects, exactly one fixed fallback assistant
message is appended after the optimistic user message, and the busy flag is
false once the call settles — on failure and on success alike. -/
theorem C5_failure_fallback (fd : FlightData) (st st1 : ChatState) (req : ChatRequest)
    (cause : FailureCause) :
    sendMessageStart fd st = (st1, some req) →
      (sendMessage fd (.failure cause) st).1.messages =
        st1.messages ++ [{ role := .assistant, content := some errorText }]
      ∧ (sendMessage fd (.failure cause) st).1.isLoading = false
      ∧ ∀ (res : HttpResult) (st2 : ChatState),
        (sendMessageSettle res st2).isLoading = false := by
  intro h
  unfold sendMessage
  rw [h]
  refine ⟨?_, ?_, ?_⟩
  · rw [sendMessageSettle_messages]
  · rw [sendMessageSettle_isLoading]
  · intro res st2
    exact sendMessageSettle_isLoading res st2

/-- C5 witness: a timeout on the "hi" send appends exactly the fallback
message and clears the busy flag. -/
theorem C5_witness :
    sendMessageStart fdGpsTwo stHi = (stHiStarted, some reqHi)
    ∧ (sendMessage fdGpsTwo (.failure .timeout) stHi).1.messages =
        stHiStarted.messages ++ [{ role := .assistant, content := some errorText }]
    ∧ (sendMessage fdGpsTwo (.failure .timeout) stHi).1.isLoading = false := by
  have h : sendMessageStart fdGpsTwo stHi = (stHiStarted, some reqHi) := by decide
  have c := C5_failure_fallback fdGpsTwo stHi stHiStarted reqHi .timeout h
  exact ⟨h, c.1, c.2.1⟩

/-- C6 (counterexample): a fulfilled 2xx response whose body lacks the
`response` field does NOT produce the generic error message — the code pushes
an assistant message whose content is `undefined` into the list. -/
theorem C6_counterexample :
    (sendMessage fdGpsTwo (.success { response := none }) stHi).1.messages =
      [{ role := .user, content := some "hi" }, { role := .assistant, content := none }]
    ∧ ({ role := .assistant, content := none } : Message).content ≠ some errorText := by
  constructor
  · decide
  · decide

/-- C6 (amended): every rejected-promise cause (timeout, connection refused,
non-2xx status) collapses into the one generic fallback message; but a 2xx
response whose parsed body lacks the `response` string field instead appends
an assistant message with undefined content (never the generic message). -/
theorem C6_error_collapse (fd : FlightData) (st st1 : ChatState) (req : ChatRequest) :
    sendMessageStart fd st = (st1, some req) →
      (∀ cause : FailureCause,
        (sendMessage fd (.failure cause) st).1.messages =
          st1.messages ++ [{ role := .assistant, content := some errorText }])
      ∧ (∀ body : ResponseBody,
        (sendMessage fd (.success body) st).1.messages =
          st1.messages ++ [{ role := .assistant, content := body.response }]) := by
  intro h
  constructor
  · intro cause
    unfold sendMessage
    rw [h, sendMessageSettle_messages]
  · intro body
    unfold sendMessage
    rw [h, sendMessageSettle_messages]

/-- C6 witness: connection refused yields the fallback; a body without
`response` yields an assistant message with no content. -/
theorem C6_witness :
    sendMessageStart fdGpsTwo stHi = (stHiStarted, some reqHi)
    ∧ (sendMessage fdGpsTwo (.failure .connectionRefused) stHi).1.messages =
        stHiStarted.messages ++ [{ role := .assistant, content := some errorText }]
    ∧ (sendMessage fdGpsTwo (.success { response := none }) stHi).1.messages =
        stHiStarted.messages ++ [{ role := .assistant, content := none }] := by
  have h : sendMessageStart fdGpsTwo stHi = (stHiStarted, some reqHi) := by decide
  have c := C6_error_collapse fdGpsTwo stHi stHiStarted reqHi h
  exact ⟨h, c.1 .connectionRefused, c.2 { response := none }⟩

/-- C8: both `sendMessage` (any outcome) and the flightData change handler
only append to the message list — the old list is a prefix of the new one,
everything appended is a user or assistant message, and the length never
decreases. -/
theorem C8_append_only (fd : FlightData) (res : HttpResult) (st : ChatState) :
    (∃ tl, (sendMessage fd res st).1.messages = st.messages ++ tl
      ∧ ∀ m ∈ tl, m.role = Role.user ∨ m.role = Role.assistant)
    ∧ (∃ tl, (flightDataChanged fd st).messages = st.messages ++ tl
      ∧ ∀ m ∈ tl, m.role = Role.user ∨ m.role = Role.assistant)
    ∧ st.messages.length ≤ (sendMessage fd res st).1.messages.length
    ∧ st.messages.length ≤ (flightDataChanged fd st).messages.length := by
  have hsend : ∃ tl, (sendMessage fd res st).1.messages = st.messages ++ tl
      ∧ ∀ m ∈ tl, m.role = Role.user ∨ m.role = Role.assistant := by
    by_cases g : (jsTrim st.newMessage = "" ∨ st.isLoading = true ∨
        hasFlightData fd = false)
    · have h := (sendMessageStart_spec fd st).2 g
      unfold sendMessage
      rw [h]
      exact ⟨[], by simp, by simp⟩
    · have h := (sendMessageStart_spec fd st).1 g
      unfold sendMessage
      rw [h, sendMessageSettle_messages]
      rcases res with body | cause
      · refine ⟨[{ role := .user, content := some st.newMessage },
          { role := .assistant, content := body.response }], by simp, by simp⟩
      · refine ⟨[{ role := .user, content := some st.newMessage },
          { role := .assistant, content := some errorText }], by simp, by simp⟩
  have hwatch : ∃ tl, (flightDataChanged fd st).messages = st.messages ++ tl
      ∧ ∀ m ∈ tl, m.role = Role.user ∨ m.role = Role.assistant := by
    by_cases hfd : hasFlightData fd = true
    · by_cases hm : st.messages = []
      · refine ⟨[{ role := .assistant, content := some greetingText }], ?_, by simp⟩
        rw [(flightDataChanged_messages_spec fd st).1 hfd hm, hm]
        rfl
      · exact ⟨[], by simp [(flightDataChanged_messages_spec fd st).2.1 hm], by simp⟩
    · have hf := (flightDataChanged_messages_spec fd st).2.2
        (hasFlightData_eq_false_of_not fd hfd)
      exact ⟨[], by simp [hf], by simp⟩
  obtain ⟨t1, ht1, hr1⟩ := hsend
  obtain ⟨t2, ht2, hr2⟩ := hwatch
  refine ⟨⟨t1, ht1, hr1⟩, ⟨t2, ht2, hr2⟩, ?_, ?_⟩
  · rw [ht1]
    simp
  · rw [ht2]
    simp

/-- C10: a send that passes its guard clears the input field synchronously at
request-emission time, the typed text survives as the optimistic user message
and as the request payload, and settling never restores the input text. -/
theorem C10_input_clear (fd : FlightData) (st st1 : ChatState) (req : ChatRequest) :
    sendMessageStart fd st = (st1, some req) →
      st1.newMessage = ""
      ∧ req.message = st.newMessage
      ∧ st1.messages = st.messages ++ [{ role := .user, content := some st.newMessage }]
      ∧ ∀ res : HttpResult, (sendMessage fd res st).1.newMessage = "" := by
  intro h
  by_cases g : (jsTrim st.newMessage = "" ∨ st.isLoading = true ∨
      hasFlightData fd = false)
  · rw [(sendMessageStart_spec fd st).2 g] at h
    injection h with h1 h2
    simp at h2
  · have hs := (sendMessageStart_spec fd st).1 g
    rw [hs] at h
    injection h with h1 h2
    injection h2 with h2
    subst h1
    subst h2
    refine ⟨rfl, rfl, rfl, ?_⟩
    intro res
    unfold sendMessage
    rw [hs, sendMessageSettle_newMessage]

/-- C10 witness: sending "hi" clears the input, records "hi" as the user
message and request payload, and the input is still clear after a timeout. -/
theorem C10_witness :
    sendMessageStart fdGpsTwo stHi = (stHiStarted, some reqHi)
    ∧ stHiStarted.newMessage = ""
    ∧ reqHi.message = stHi.newMessage
    ∧ (sendMessage fdGpsTwo (.failure .timeout) stHi).1.newMessage = "" := by
  have h : sendMessageStart fdGpsTwo stHi = (stHiStarted, some reqHi) := by decide
  have c := C10_input_clear fdGpsTwo stHi stHiStarted reqHi h
  exact ⟨h, c.1, c.2.1, c.2.2.2 (.failure .timeout)⟩

/-- C8 witness: exercised on the "hi" send with a timeout and on a flightData
change. -/
theorem C8_witness :
    (∃ tl, (sendMessage fdGpsTwo (.failure .timeout) stHi).1.messages =
        stHi.messages ++ tl
      ∧ ∀ m ∈ tl, m.role = Role.user ∨ m.role = Role.assistant)
    ∧ (∃ tl, (flightDataChanged fdGpsTwo stHi).messages = stHi.messages ++ tl
      ∧ ∀ m ∈ tl, m.role = Role.user ∨ m.role = Role.assistant)
    ∧ stHi.messages.length ≤
        (sendMessage fdGpsTwo (.failure .timeout) stHi).1.messages.length
    ∧ stHi.messages.length ≤ (flightDataChanged fdGpsTwo stHi).messages.length :=
  C8_append_only fdGpsTwo (.failure .timeout) stHi

end ChatBot
